import Mathlib

/-!
Shallow embedding of the AQVA delivery app's order lifecycle, claim
protocol, payment webhook handler, checkout-session endpoint and role
resolution, translated from the TypeScript sources:
  - src/src/auth/AuthScreen.tsx   (rider claim + delivery progression)
  - src/src/admin/AdminApp.tsx    (customer cancel)
  - src/supabase/functions/stripe-webhook/index.ts
  - src/unnamed/part_001          (create-checkout endpoint)
  - src/src/App.tsx               (role resolution)

Timestamps are modelled as `Nat` tokens (the code passes ISO strings it
never inspects); unix-second timestamps in the webhook are `Int`.
Row ids are `String` (uuids in the code).
-/

namespace Aqva

/-- Order.status: {pending, assigned, en_route, delivered, failed, cancelled}. -/
inductive OrderStatus where
  | pending
  | assigned
  | en_route
  | delivered
  | failed
  | cancelled
deriving DecidableEq, Repr

/-- Order.payment_status: {unpaid, paid, refunded}. -/
inductive OrderPayStatus where
  | unpaid
  | paid
  | refunded
deriving DecidableEq, Repr

/-- Payment-ledger row status: {pending, paid, failed}. -/
inductive PaymentRowStatus where
  | pending
  | paid
  | failed
deriving DecidableEq, Repr

/-- The persisted order record (columns touched by the embedded operations). -/
structure Order where
  id : String
  user_id : String
  status : OrderStatus
  payment_status : OrderPayStatus
  rider_id : Option String
  total_cents : Int
  eta_minutes : Option Nat
  payment_method : Option String
  created_at : Nat
  updated_at : Nat
  delivered_at : Option Nat
  cancelled_at : Option Nat
deriving DecidableEq, Repr

/-- One payment-ledger row (payments table). -/
structure Payment where
  order_id : String
  provider : String
  provider_payment_id : String
  amount_cents : Int
  currency : String
  status : PaymentRowStatus
  created_at : Nat
  updated_at : Nat
deriving DecidableEq, Repr

/-- The shared store: orders and payments tables. -/
structure Db where
  orders : List Order
  payments : List Payment
deriving DecidableEq, Repr

/-! ## Rider-side conditional updates (src/src/auth/AuthScreen.tsx)

Each supabase `update(...).eq(...)...` chain is embedded as a per-row step
function mapped over the table, plus the matched-row count (the
"rows affected" the caller observes through `.select(...)`). -/

/-- Row filter of the atomic claim in `acceptOrder` (AuthScreen.tsx 368-380):
`.eq('id', orderId).eq('status','pending').eq('payment_status','paid').is('rider_id', null)`. -/
def claimMatches (orderId : String) (o : Order) : Bool :=
  o.id == orderId && o.status == .pending && o.payment_status == .paid && o.rider_id == none

/-- Per-row effect of the claim update: `status='assigned', rider_id=riderId, updated_at=now`. -/
def claimStep (riderId : String) (now : Nat) (orderId : String) (o : Order) : Order :=
  if claimMatches orderId o then
    { o with status := .assigned, rider_id := some riderId, updated_at := now }
  else o

/-- The claim's conditional update over the orders table, returning the new
table and the number of rows affected. -/
def claimUpdate (riderId : String) (now : Nat) (orderId : String) (orders : List Order) :
    List Order × Nat :=
  (orders.map (claimStep riderId now orderId), (orders.filter (claimMatches orderId)).length)

/-- `hasActiveOrderForRider` (AuthScreen.tsx 225-240): any order with
`rider_id=rid` and status in {assigned, en_route}. -/
def hasActiveOrderForRider (rid : String) (orders : List Order) : Bool :=
  orders.any (fun o => o.rider_id == some rid && (o.status == .assigned || o.status == .en_route))

/-- Outcome the rider client observes from `acceptOrder`. `notAvailable`
models the "This order is no longer available" alert followed by the
`loadOrders()` refresh. -/
inductive ClaimOutcome where
  | claimed
  | alreadyActive
  | notAvailable
deriving DecidableEq, Repr

/-- `acceptOrder` (AuthScreen.tsx 355-397): advisory active-order pre-check,
then the atomic conditional claim; zero rows affected is reported as
`notAvailable` (alert + refresh). -/
def acceptOrder (riderId : String) (now : Nat) (orderId : String) (orders : List Order) :
    List Order × ClaimOutcome :=
  if hasActiveOrderForRider riderId orders then (orders, .alreadyActive)
  else
    let r := claimUpdate riderId now orderId orders
    if r.2 = 0 then (r.1, .notAvailable) else (r.1, .claimed)

/-- Per-row effect of `startDelivery` (AuthScreen.tsx 399-425):
set `status='en_route', eta_minutes=10, updated_at=now` where
`id=orderId AND rider_id=riderId AND status='assigned'`. -/
def startDeliveryStep (riderId : String) (now : Nat) (orderId : String) (o : Order) : Order :=
  if o.id == orderId && o.rider_id == some riderId && o.status == .assigned then
    { o with status := .en_route, eta_minutes := some 10, updated_at := now }
  else o

/-- Per-row effect of `markDelivered` (AuthScreen.tsx 427-455):
set `status='delivered', delivered_at=now, updated_at=now` where
`id=orderId AND rider_id=riderId AND status='en_route'`. -/
def markDeliveredStep (riderId : String) (now : Nat) (orderId : String) (o : Order) : Order :=
  if o.id == orderId && o.rider_id == some riderId && o.status == .en_route then
    { o with status := .delivered, delivered_at := some now, updated_at := now }
  else o

/-- Per-row effect of `markUndeliverable` (AuthScreen.tsx 457-488):
set `status='failed', cancelled_at=now, updated_at=now` where
`id=orderId AND rider_id=riderId AND status IN ('assigned','en_route')`. -/
def markUndeliverableStep (riderId : String) (now : Nat) (orderId : String) (o : Order) : Order :=
  if o.id == orderId && o.rider_id == some riderId &&
      (o.status == .assigned || o.status == .en_route) then
    { o with status := .failed, cancelled_at := some now, updated_at := now }
  else o

def startDelivery (riderId : String) (now : Nat) (orderId : String) (orders : List Order) :
    List Order :=
  orders.map (startDeliveryStep riderId now orderId)

def markDelivered (riderId : String) (now : Nat) (orderId : String) (orders : List Order) :
    List Order :=
  orders.map (markDeliveredStep riderId now orderId)

def markUndeliverable (riderId : String) (now : Nat) (orderId : String) (orders : List Order) :
    List Order :=
  orders.map (markUndeliverableStep riderId now orderId)

/-! ## Customer-initiated cancel (src/src/admin/AdminApp.tsx 625-647)

`handleCancelOrder` issues
`update({status:'cancelled', cancelled_at, updated_at}).eq('id', lastOrderId)`
— the only filter is the order id; there is NO status precondition in the
update itself (the UI merely hides the button outside
{pending, assigned, en_route}). -/

/-- Per-row effect of `handleCancelOrder`'s update: filter is `id` only. -/
def handleCancelOrderStep (now : Nat) (orderId : String) (o : Order) : Order :=
  if o.id == orderId then
    { o with status := .cancelled, cancelled_at := some now, updated_at := now }
  else o

def handleCancelOrder (now : Nat) (orderId : String) (orders : List Order) : List Order :=
  orders.map (handleCancelOrderStep now orderId)

/-! ## Stripe webhook handler (src/supabase/functions/stripe-webhook/index.ts)

The HMAC-SHA256 primitive (`crypto.subtle` in the source) is taken as an
explicit function argument `hmac : String → String → String` returning the
hex digest; everything downstream of it is transcribed from the handler.
`timingSafeEqualBytes` over the UTF-8 bytes of two hex strings holds exactly
when the strings are equal, so the `v1s.some(...)` test is string equality. -/

/-- JS `s.split(sep)` for a one-character separator, over the character
list: every separator occurrence cuts a segment, so `"".split(",") = [""]`
and `",".split(",") = ["", ""]`. -/
def jsSplitOnChar (sep : Char) : List Char → List (List Char)
  | [] => [[]]
  | c :: rest =>
    let r := jsSplitOnChar sep rest
    if c = sep then [] :: r
    else
      match r with
      | [] => [[c]]
      | seg :: segs => (c :: seg) :: segs

/-- JS `s.trim()`: strip leading and trailing whitespace characters. -/
def jsTrim (s : List Char) : List Char :=
  ((s.dropWhile Char.isWhitespace).reverse.dropWhile Char.isWhitespace).reverse

/-- `parseStripeSignature` (index.ts 23-28): split the header on commas, trim,
take the first `t=` part (its tail after the 2-character tag, JS
`.slice(2)`) and every `v1=` part (tail after 3 characters). -/
def parseStripeSignature (header : String) : Option String × List String :=
  let parts := (jsSplitOnChar ',' header.data).map jsTrim
  ((parts.find? (fun p => ['t', '='].isPrefixOf p)).map (fun p => String.mk (p.drop 2)),
   (parts.filter (fun p => ['v', '1', '='].isPrefixOf p)).map (fun p => String.mk (p.drop 3)))

/-- Decimal digit run to a number; `none` when empty or a non-digit occurs. -/
def digitsToNat : List Char → Option Nat
  | [] => none
  | l => l.foldl (fun acc c =>
      match acc with
      | none => none
      | some n => if c.isDigit then some (n * 10 + (c.toNat - '0'.toNat)) else none)
      (some 0)

/-- `Number(t)` on the timestamp, modelled for (optionally negated)
decimal-integer strings; `none` plays the role of NaN (the
`Number.isFinite` rejection). -/
def parseTimestampNum (t : String) : Option Int :=
  match t.data with
  | '-' :: rest => (digitsToNat rest).map (fun n => -(n : Int))
  | l => (digitsToNat l).map (fun n => (n : Int))

/-- The authentication stage of the webhook handler (index.ts 49-70):
header parsing, the 300-second timestamp tolerance, then the signature
comparison of each `v1` against the hex HMAC of `"{t}.{rawBody}"`.
Returns `some status` for a rejection response, `none` when the request
is authenticated. -/
def webhookAuth (hmac : String → String → String) (secret : String) (nowSec : Int)
    (sigHeader rawBody : String) : Option Nat :=
  let parsed := parseStripeSignature sigHeader
  match parsed.1 with
  | none => some 400
  | some t =>
    if parsed.2.isEmpty then some 400
    else
      match parseTimestampNum t with
      | none => some 400
      | some ts =>
        if (nowSec - ts).natAbs > 300 then some 401
        else
          let expectedHex := hmac secret (t ++ "." ++ rawBody)
          if parsed.2.any (fun v1 => v1 == expectedHex) then none else some 401

/-- The fields of the parsed webhook event that the handler reads
(`event.type`, `event.data.object.{id, metadata.order_id,
client_reference_id, amount_total, currency}`). `Option` marks fields that
may be absent (JS `undefined`/`null`). -/
structure StripeEvent where
  type : String
  sessionId : Option String
  metaOrderId : Option String
  clientReferenceId : Option String
  amountTotal : Option Int
  currency : Option String
deriving DecidableEq, Repr

/-- JS `a ?? b` on possibly-missing strings. -/
def jsNullish (a b : Option String) : Option String :=
  match a with
  | some x => some x
  | none => b

/-- JS truthiness test `!x` for a possibly-missing string: missing or empty. -/
def jsFalsyStr (s : Option String) : Bool :=
  match s with
  | none => true
  | some x => x.isEmpty

/-- JS `String.prototype.toUpperCase` restricted to ASCII letters (currency
codes in the handler are ASCII). -/
def jsToUpper (s : String) : String :=
  String.mk (s.data.map (fun c =>
    if 'a' ≤ c ∧ c ≤ 'z' then Char.ofNat (c.toNat - 32) else c))

/-- Key of the payments update in the completed branch (index.ts 97-103):
`order_id=oid AND provider='stripe' AND provider_payment_id=sid`. -/
def paymentKeyMatches (oid sid : String) (p : Payment) : Bool :=
  p.order_id == oid && p.provider == "stripe" && p.provider_payment_id == sid

/-- Per-row effect of the orders update in the completed branch
(index.ts 90-93): `payment_status='paid', payment_method='card',
updated_at` where `id=oid` — keyed by order id only. -/
def completedOrderStep (oid : String) (nowIso : Nat) (o : Order) : Order :=
  if o.id == oid then
    { o with payment_status := .paid, payment_method := some "card", updated_at := nowIso }
  else o

/-- Per-row effect of the payments update in the completed branch
(index.ts 97-103): `status='paid', updated_at` on key-matching rows. -/
def completedPaymentStep (oid sid : String) (nowIso : Nat) (p : Payment) : Payment :=
  if paymentKeyMatches oid sid p then { p with status := .paid, updated_at := nowIso } else p

/-- The payment row inserted when the update matched zero rows
(index.ts 108-117): amount from the event's `amount_total ?? 0`, currency
from the event's `currency ?? 'ZAR'`, uppercased. -/
def fallbackPaymentRow (oid sid : String) (ev : StripeEvent) (nowIso : Nat) : Payment :=
  { order_id := oid, provider := "stripe", provider_payment_id := sid,
    amount_cents := ev.amountTotal.getD 0,
    currency := jsToUpper (ev.currency.getD "ZAR"),
    status := .paid, created_at := nowIso, updated_at := nowIso }

/-- The `checkout.session.completed` branch (index.ts 88-120): set the
order's payment fields by id; update matching payment rows to paid; insert
the fallback row only when zero rows were updated. -/
def processCompleted (oid sid : String) (ev : StripeEvent) (nowIso : Nat) (db : Db) : Db :=
  { orders := db.orders.map (completedOrderStep oid nowIso),
    payments :=
      if (db.payments.filter (paymentKeyMatches oid sid)).length = 0 then
        db.payments.map (completedPaymentStep oid sid nowIso) ++
          [fallbackPaymentRow oid sid ev nowIso]
      else db.payments.map (completedPaymentStep oid sid nowIso) }

/-- The `checkout.session.expired` branch (index.ts 124-138): matching
payment rows to failed, the order's payment_status to unpaid. -/
def processExpired (oid sid : String) (nowIso : Nat) (db : Db) : Db :=
  { orders := db.orders.map (fun o =>
      if o.id == oid then { o with payment_status := .unpaid, updated_at := nowIso } else o),
    payments := db.payments.map (fun p =>
      if paymentKeyMatches oid sid p then { p with status := .failed, updated_at := nowIso }
      else p) }

/-- Event dispatch after authentication (index.ts 74-140): resolve
`orderId = metadata.order_id ?? client_reference_id`; a missing/empty
orderId or sessionId is acknowledged with 200 and no action; then the two
recognized event types; anything else is acknowledged with 200 unchanged. -/
def processEvent (ev : StripeEvent) (nowIso : Nat) (db : Db) : Nat × Db :=
  let orderId := jsNullish ev.metaOrderId ev.clientReferenceId
  if jsFalsyStr orderId || jsFalsyStr ev.sessionId then (200, db)
  else
    let oid := orderId.getD ""
    let sid := ev.sessionId.getD ""
    if ev.type == "checkout.session.completed" then (200, processCompleted oid sid ev nowIso db)
    else if ev.type == "checkout.session.expired" then (200, processExpired oid sid nowIso db)
    else (200, db)

/-- The whole webhook request handler: authentication stage, then JSON
parsing (`parseEvent` stands for `JSON.parse` plus field extraction; a
parse failure lands in the catch-all 500 with no mutation), then event
processing. Returns the HTTP status and the resulting store. -/
def webhookHandler (hmac : String → String → String) (parseEvent : String → Option StripeEvent)
    (secret : String) (nowSec : Int) (nowIso : Nat)
    (sigHeader rawBody : String) (db : Db) : Nat × Db :=
  match webhookAuth hmac secret nowSec sigHeader rawBody with
  | some s => (s, db)
  | none =>
    match parseEvent rawBody with
    | none => (500, db)
    | some ev => processEvent ev nowIso db

/-! ## Checkout-session-creation endpoint (src/unnamed/part_001)

The Stripe API call is taken as an argument: `some session` when the
provider call succeeds (resp.ok), `none` when it fails. The caller's
authenticated user id is `some uid` or `none` (auth.getUser failure). -/

/-- The provider session returned by a successful Stripe call. -/
structure StripeSession where
  id : String
  url : String
deriving DecidableEq, Repr

/-- Response of the endpoint: an error status, or 200 with the redirect
url and session id. -/
inductive CheckoutResp where
  | err (status : Nat)
  | ok (url : String) (sessionId : String)
deriving DecidableEq, Repr

/-- The create-checkout handler (part_001 lines 44-125): payload check,
auth check, order lookup, ownership, payability, minimum amount; then the
unconditional `payment_method='card'` tag update keyed by order id; then
the provider call, and on success the pending payment insert. -/
def createCheckout (callerId : Option String) (orderIdPayload : Option String)
    (stripeResult : Option StripeSession) (now : Nat) (db : Db) : Db × CheckoutResp :=
  match orderIdPayload with
  | none => (db, .err 400)
  | some oid =>
    match callerId with
    | none => (db, .err 401)
    | some uid =>
      match db.orders.find? (fun o => o.id == oid) with
      | none => (db, .err 404)
      | some order =>
        if order.user_id ≠ uid then (db, .err 403)
        else if order.payment_status = .paid then (db, .err 409)
        else if order.status = .cancelled ∨ order.status = .delivered ∨ order.status = .failed then
          (db, .err 409)
        else if order.total_cents < 100 then (db, .err 400)
        else
          let db1 : Db :=
            { db with orders := db.orders.map (fun o =>
                if o.id == order.id then { o with payment_method := some "card", updated_at := now }
                else o) }
          match stripeResult with
          | none => (db1, .err 502)
          | some session =>
            let db2 : Db :=
              { db1 with payments := db1.payments ++
                  [{ order_id := order.id, provider := "stripe",
                     provider_payment_id := session.id, amount_cents := order.total_cents,
                     currency := "ZAR", status := .pending,
                     created_at := now, updated_at := now }] }
            (db2, .ok session.url session.id)

/-! ## Role resolution (src/src/App.tsx)

`safeIsAdminRpc` races the `is_admin` RPC against a timeout that resolves
to `{data: null, error: null}`; `resolveRole` then checks admin (strict
`=== true`, and a returned RPC error only logs and falls through), then the
linked rider profile, then defaults to client; a thrown exception lands in
the catch, which sets role client and surfaces the diagnostic message. -/

inductive Role where
  | admin
  | rider
  | client
deriving DecidableEq, Repr

/-- Outcome of the `Promise.race` inside `safeIsAdminRpc`: either the RPC
settled first with its `{data, error}` pair (`error` is its truthiness), or
the timeout fired. -/
inductive AdminRaceOutcome where
  | rpcResolved (data : Option Bool) (error : Bool)
  | timedOut
deriving DecidableEq, Repr

/-- `safeIsAdminRpc` (App.tsx 15-22): the timeout resolves to
`{data: null, error: null}`. -/
def safeIsAdminRpc (raced : AdminRaceOutcome) : Option Bool × Bool :=
  match raced with
  | .rpcResolved d e => (d, e)
  | .timedOut => (none, false)

/-- Reply of the rider-profile query: whether a row came back, and the
error code when the query errored (`none` = no error). -/
structure RiderQueryReply where
  row : Bool
  errCode : Option String
deriving DecidableEq, Repr

/-- A step of `resolveRole` that can also throw (an awaited promise
rejecting), which lands in the surrounding catch. -/
inductive Step (α : Type) where
  | ok (a : α)
  | throws
deriving DecidableEq, Repr

/-- `resolveRole` (App.tsx 89-127). Returns the resolved role and whether
the user-visible diagnostic (`setError`) was surfaced — which happens only
in the catch branch. -/
def resolveRole (admin : Step AdminRaceOutcome) (riderQ : Step RiderQueryReply) : Role × Bool :=
  match admin with
  | .throws => (.client, true)
  | .ok raced =>
    let r := safeIsAdminRpc raced
    if r.2 = false ∧ r.1 = some true then (.admin, false)
    else
      match riderQ with
      | .throws => (.client, true)
      | .ok reply =>
        if reply.errCode ≠ none ∧ reply.errCode ≠ some "PGRST116" then (.client, false)
        else if reply.row then (.rider, false)
        else (.client, false)

/-! ## Sample records used by the closed witness corollaries -/

/-- A pending, paid, unclaimed order. -/
def sampleOrder : Order :=
  { id := "o1", user_id := "u1", status := .pending, payment_status := .paid,
    rider_id := none, total_cents := 23997, eta_minutes := none, payment_method := none,
    created_at := 0, updated_at := 0, delivered_at := none, cancelled_at := none }

/-- A delivered order (terminal status). -/
def deliveredOrder : Order :=
  { sampleOrder with id := "o2", status := .delivered, delivered_at := some 3 }

/-- An order assigned to rider r1. -/
def assignedOrder : Order :=
  { sampleOrder with id := "o3", status := .assigned, rider_id := some "r1" }

/-! ## Generic list helpers -/

/-- Mapping an idempotent per-row step twice is mapping it once. -/
theorem map_step_twice {α : Type} (u : α → α) (h : ∀ a, u (u a) = u a) (l : List α) :
    (l.map u).map u = l.map u := by
  induction l with
  | nil => rfl
  | cons a l ih => simp [h, ih]

/-- A step that fixes every element of a list maps the list to itself. -/
theorem map_step_fixed {α : Type} (u : α → α) (l : List α) (h : ∀ a ∈ l, u a = a) :
    l.map u = l := by
  induction l with
  | nil => rfl
  | cons a l ih =>
    simp only [List.map_cons, h a (by simp)]
    exact congrArg _ (ih (fun a ha => h a (by simp [ha])))

/-- Filtering a mapped list, when the filter composed with the step agrees
with a key on the original elements. -/
theorem map_filter_key {α : Type} (u : α → α) (q k2 : α → Bool) (h : ∀ a, q (u a) = k2 a)
    (l : List α) : (l.map u).filter q = (l.filter k2).map u := by
  induction l with
  | nil => rfl
  | cons a l ih =>
    by_cases ha : k2 a = true
    · simp [List.filter_cons, h, ha, ih]
    · simp only [Bool.not_eq_true] at ha
      simp [List.filter_cons, h, ha, ih]

/-! ## C1: the atomic claim -/

/-- The Bool row filter of the claim, as a Prop. -/
theorem claimMatches_iff (orderId : String) (o : Order) :
    claimMatches orderId o = true ↔
      o.id = orderId ∧ o.status = .pending ∧ o.payment_status = .paid ∧ o.rider_id = none := by
  simp [claimMatches, and_assoc]

/-- C1. Given the advisory pre-check passed (the rider holds no active
order), the claim update applies — setting status=assigned and rider_id to
the calling rider — if and only if the target order is pending, paid and
unclaimed; otherwise the store is left unchanged, zero rows are affected,
and the caller lands in the `notAvailable` branch (the "order no longer
available" alert followed by the view refresh). -/
theorem acceptOrder_claims_iff_available (riderId : String) (now : Nat) (orderId : String)
    (orders : List Order) (o : Order)
    (hpre : hasActiveOrderForRider riderId orders = false)
    (hmem : o ∈ orders) (hid : o.id = orderId)
    (hnodup : (orders.map Order.id).Nodup) :
    (o.status = .pending ∧ o.payment_status = .paid ∧ o.rider_id = none →
      acceptOrder riderId now orderId orders =
        (orders.map (fun x => if x = o then
            { x with status := .assigned, rider_id := some riderId, updated_at := now }
          else x), .claimed))
    ∧ (¬(o.status = .pending ∧ o.payment_status = .paid ∧ o.rider_id = none) →
      acceptOrder riderId now orderId orders = (orders, .notAvailable)) := by
  have hinj := List.inj_on_of_nodup_map hnodup
  constructor
  · intro hcond
    have hmatch : claimMatches orderId o = true := (claimMatches_iff orderId o).mpr ⟨hid, hcond⟩
    have hcount : (orders.filter (claimMatches orderId)).length ≠ 0 := by
      have : o ∈ orders.filter (claimMatches orderId) := List.mem_filter.mpr ⟨hmem, hmatch⟩
      intro h0
      rw [List.length_eq_zero] at h0
      simp [h0] at this
    have hmap : orders.map (claimStep riderId now orderId) =
        orders.map (fun x => if x = o then
          { x with status := .assigned, rider_id := some riderId, updated_at := now } else x) := by
      apply List.map_congr_left
      intro x hx
      by_cases hxo : x = o
      · subst hxo
        simp [claimStep, hmatch]
      · have hxid : claimMatches orderId x = false := by
          rw [Bool.eq_false_iff]
          intro hcm
          exact hxo (hinj hx hmem (((claimMatches_iff orderId x).mp hcm).1.trans hid.symm))
        simp [claimStep, hxid, hxo]
    simp only [acceptOrder, hpre, Bool.false_eq_true, if_false, claimUpdate]
    rw [if_neg hcount, hmap]
  · intro hcond
    have hall : ∀ x ∈ orders, claimMatches orderId x = false := by
      intro x hx
      rw [Bool.eq_false_iff]
      intro hcm
      rcases (claimMatches_iff orderId x).mp hcm with ⟨hxid, hrest⟩
      have hxo : x = o := hinj hx hmem (hxid.trans hid.symm)
      exact hcond (hxo ▸ hrest)
    have hfilter : orders.filter (claimMatches orderId) = [] :=
      List.filter_eq_nil_iff.mpr (fun a ha => by simp [hall a ha])
    have hmap : orders.map (claimStep riderId now orderId) = orders :=
      map_step_fixed _ _ (fun a ha => by simp [claimStep, hall a ha])
    simp [acceptOrder, hpre, claimUpdate, hfilter, hmap]

/-- Closed instance of C1: a lone pending+paid+unclaimed order is claimed. -/
theorem acceptOrder_claims_iff_available_witness :
    acceptOrder "r1" 5 "o1" [sampleOrder] =
      ([{ sampleOrder with status := .assigned, rider_id := some "r1", updated_at := 5 }],
        .claimed) :=
  (((acceptOrder_claims_iff_available "r1" 5 "o1" [sampleOrder] sampleOrder
      (by decide) (by decide) (by decide) (by decide)).1 (by decide))).trans (by decide)

/-! ## C2: customer cancel has no status precondition (code bug) -/

/-- C2 (divergence witness): `handleCancelOrder`'s update is keyed by order
id alone, so applied to an order already in status=delivered it silently
succeeds and sets status=cancelled — the spec requires that it must not. -/
theorem handleCancelOrder_cancels_delivered :
    handleCancelOrder 9 "o2" [deliveredOrder] =
      [{ deliveredOrder with status := .cancelled, cancelled_at := some 9, updated_at := 9 }] ∧
    (handleCancelOrder 9 "o2" [deliveredOrder]).map Order.status = [.cancelled] := by
  constructor
  · decide
  · decide

/-! ## C6: rider-driven delivery transitions -/

/-- C6. Each rider transition applies exactly when the order matches the
caller's rider_id and the required prior status, with the stated effect
(`en_route`+eta 10, `delivered`+delivered_at, `failed`+cancelled_at), and
otherwise leaves the row unchanged; in particular an order whose rider_id
differs from the caller is never transitioned by any of the three. -/
theorem rider_transitions_guarded (riderId : String) (now : Nat) (orderId : String) (o : Order) :
    (startDeliveryStep riderId now orderId o =
      if o.id = orderId ∧ o.rider_id = some riderId ∧ o.status = .assigned then
        { o with status := .en_route, eta_minutes := some 10, updated_at := now }
      else o)
    ∧ (markDeliveredStep riderId now orderId o =
      if o.id = orderId ∧ o.rider_id = some riderId ∧ o.status = .en_route then
        { o with status := .delivered, delivered_at := some now, updated_at := now }
      else o)
    ∧ (markUndeliverableStep riderId now orderId o =
      if o.id = orderId ∧ o.rider_id = some riderId ∧
          (o.status = .assigned ∨ o.status = .en_route) then
        { o with status := .failed, cancelled_at := some now, updated_at := now }
      else o)
    ∧ (o.rider_id ≠ some riderId →
      startDeliveryStep riderId now orderId o = o
      ∧ markDeliveredStep riderId now orderId o = o
      ∧ markUndeliverableStep riderId now orderId o = o) := by
  have h1 : startDeliveryStep riderId now orderId o =
      if o.id = orderId ∧ o.rider_id = some riderId ∧ o.status = .assigned then
        { o with status := .en_route, eta_minutes := some 10, updated_at := now }
      else o := by
    by_cases h : o.id = orderId ∧ o.rider_id = some riderId ∧ o.status = .assigned
    · simp [startDeliveryStep, h.1, h.2.1, h.2.2]
    · rw [if_neg h]
      simp only [startDeliveryStep, ite_eq_right_iff]
      intro hb
      exact absurd (by simpa [and_assoc] using hb) h
  have h2 : markDeliveredStep riderId now orderId o =
      if o.id = orderId ∧ o.rider_id = some riderId ∧ o.status = .en_route then
        { o with status := .delivered, delivered_at := some now, updated_at := now }
      else o := by
    by_cases h : o.id = orderId ∧ o.rider_id = some riderId ∧ o.status = .en_route
    · simp [markDeliveredStep, h.1, h.2.1, h.2.2]
    · rw [if_neg h]
      simp only [markDeliveredStep, ite_eq_right_iff]
      intro hb
      exact absurd (by simpa [and_assoc] using hb) h
  have h3 : markUndeliverableStep riderId now orderId o =
      if o.id = orderId ∧ o.rider_id = some riderId ∧
          (o.status = .assigned ∨ o.status = .en_route) then
        { o with status := .failed, cancelled_at := some now, updated_at := now }
      else o := by
    by_cases h : o.id = orderId ∧ o.rider_id = some riderId ∧
        (o.status = .assigned ∨ o.status = .en_route)
    · have hb : (o.id == orderId && o.rider_id == some riderId &&
          (o.status == OrderStatus.assigned || o.status == OrderStatus.en_route)) = true := by
        simp [h.1, h.2.1, h.2.2]
      simp [markUndeliverableStep, hb, h]
    · rw [if_neg h]
      simp only [markUndeliverableStep, ite_eq_right_iff]
      intro hb
      exact absurd (by simpa [and_assoc] using hb) h
  refine ⟨h1, h2, h3, fun hne => ⟨?_, ?_, ?_⟩⟩
  · rw [h1, if_neg (fun h => hne h.2.1)]
  · rw [h2, if_neg (fun h => hne h.2.1)]
  · rw [h3, if_neg (fun h => hne h.2.1)]

/-- Closed instance of C6: rider r2 cannot move an order assigned to r1. -/
theorem rider_transitions_guarded_witness :
    startDeliveryStep "r2" 7 "o3" assignedOrder = assignedOrder
    ∧ markDeliveredStep "r2" 7 "o3" assignedOrder = assignedOrder
    ∧ markUndeliverableStep "r2" 7 "o3" assignedOrder = assignedOrder :=
  (rider_transitions_guarded "r2" 7 "o3" assignedOrder).2.2.2 (by decide)

/-! ## C3 and C5: webhook authentication -/

/-- For a well-formed header whose timestamp is inside the tolerance
window, the authentication stage reduces to the bare signature test. -/
theorem webhookAuth_reduces (hmac : String → String → String) (secret : String) (nowSec : Int)
    (sigHeader : String) (t : String) (v1s : List String) (ts : Int)
    (hparse : parseStripeSignature sigHeader = (some t, v1s))
    (hne : v1s ≠ [])
    (hts : parseTimestampNum t = some ts)
    (htol : ¬(nowSec - ts).natAbs > 300) (body : String) :
    webhookAuth hmac secret nowSec sigHeader body =
      (if v1s.any (fun v1 => v1 == hmac secret (t ++ "." ++ body)) then none else some 401) := by
  simp only [webhookAuth, hparse, hts]
  rw [if_neg (by simpa using hne), if_neg htol]

/-- C3. The handler accepts the signature exactly when some `v1` value of
the stripe-signature header equals the hex HMAC of `"{t}.{rawBody}"` under
the shared secret; consequently a request whose body was altered (so that
no supplied `v1` matches the altered payload's MAC) gets 401 and leaves
orders and payments untouched. -/
theorem webhook_signature_iff (hmac : String → String → String)
    (secret : String) (nowSec : Int) (sigHeader rawBody : String)
    (t : String) (v1s : List String) (ts : Int)
    (hparse : parseStripeSignature sigHeader = (some t, v1s))
    (hne : v1s ≠ [])
    (hts : parseTimestampNum t = some ts)
    (htol : ¬(nowSec - ts).natAbs > 300) :
    (webhookAuth hmac secret nowSec sigHeader rawBody = none ↔
      ∃ v1 ∈ v1s, v1 = hmac secret (t ++ "." ++ rawBody))
    ∧ (∀ (parseEvent : String → Option StripeEvent) (nowIso : Nat) (db : Db) (altBody : String),
        (∀ v1 ∈ v1s, v1 ≠ hmac secret (t ++ "." ++ altBody)) →
        webhookHandler hmac parseEvent secret nowSec nowIso sigHeader altBody db = (401, db)) := by
  constructor
  · rw [webhookAuth_reduces hmac secret nowSec sigHeader t v1s ts hparse hne hts htol rawBody]
    by_cases hany : v1s.any (fun v1 => v1 == hmac secret (t ++ "." ++ rawBody)) = true
    · simp only [hany, if_true]
      simp only [List.any_eq_true, beq_iff_eq] at hany
      exact iff_of_true trivial hany
    · simp only [Bool.not_eq_true] at hany
      simp only [hany, Bool.false_eq_true, if_false]
      constructor
      · intro h
        exact absurd h (by simp)
      · intro hex
        rw [List.any_eq_false] at hany
        rcases hex with ⟨v1, hv1, heq⟩
        exact absurd (by simpa using heq) (hany v1 hv1)
  · intro parseEvent nowIso db altBody halt
    have hany : v1s.any (fun v1 => v1 == hmac secret (t ++ "." ++ altBody)) = false := by
      rw [List.any_eq_false]
      intro v1 hv1
      simpa using halt v1 hv1
    have hauth : webhookAuth hmac secret nowSec sigHeader altBody = some 401 := by
      rw [webhookAuth_reduces hmac secret nowSec sigHeader t v1s ts hparse hne hts htol altBody,
        hany]
      simp
    simp [webhookHandler, hauth]

/-- Closed instance of C3: with the MAC function instantiated, the intact
body passes and the altered body is rejected with 401 and no change to a
store holding one order and one payment row. -/
theorem webhook_signature_iff_witness :
    webhookAuth (fun _ m => m) "sec" 1000 "t=1000,v1=1000.body" "body" = none
    ∧ webhookHandler (fun _ m => m) (fun _ => none) "sec" 1000 2
        "t=1000,v1=1000.body" "bodz" ⟨[sampleOrder], []⟩ = (401, ⟨[sampleOrder], []⟩) := by
  have h := webhook_signature_iff (fun _ m => m) "sec" 1000 "t=1000,v1=1000.body" "body"
    "1000" ["1000.body"] 1000 (by decide) (by decide) (by decide) (by decide)
  exact ⟨h.1.mpr ⟨"1000.body", by decide, by decide⟩,
    h.2 (fun _ => none) 2 ⟨[sampleOrder], []⟩ "bodz" (by decide)⟩

/-- C5. A well-formed request whose timestamp is more than 300 seconds from
the current time is answered 401 with no store mutation, for every possible
MAC function and signature list — i.e. regardless of signature validity,
and without the outcome depending on any signature comparison. -/
theorem webhook_timestamp_window (secret : String) (nowSec : Int) (sigHeader : String)
    (t : String) (v1s : List String) (ts : Int)
    (hparse : parseStripeSignature sigHeader = (some t, v1s))
    (hne : v1s ≠ [])
    (hts : parseTimestampNum t = some ts)
    (htol : (nowSec - ts).natAbs > 300) :
    ∀ (hmac : String → String → String) (parseEvent : String → Option StripeEvent)
      (nowIso : Nat) (rawBody : String) (db : Db),
      webhookAuth hmac secret nowSec sigHeader rawBody = some 401
      ∧ webhookHandler hmac parseEvent secret nowSec nowIso sigHeader rawBody db = (401, db) := by
  intro hmac parseEvent nowIso rawBody db
  have hauth : webhookAuth hmac secret nowSec sigHeader rawBody = some 401 := by
    simp only [webhookAuth, hparse, hts]
    rw [if_neg (by simpa using hne), if_pos htol]
  exact ⟨hauth, by simp [webhookHandler, hauth]⟩

/-- Closed instance of C5: timestamp 301 seconds in the past is rejected
with 401 even though the supplied `v1` is the correct MAC of the payload. -/
theorem webhook_timestamp_window_witness :
    webhookAuth (fun _ m => m) "sec" 1301 "t=1000,v1=1000.body" "body" = some 401
    ∧ webhookHandler (fun _ m => m) (fun _ => none) "sec" 1301 2
        "t=1000,v1=1000.body" "body" ⟨[sampleOrder], []⟩ = (401, ⟨[sampleOrder], []⟩) :=
  webhook_timestamp_window "sec" 1301 "t=1000,v1=1000.body" "1000" ["1000.body"] 1000
    (by decide) (by decide) (by decide) (by decide)
    (fun _ m => m) (fun _ => none) 2 "body" ⟨[sampleOrder], []⟩

/-! ## C4 and C10: completed-webhook replay idempotence and the insert fallback -/

/-- A pending ledger row for session cs_1, as create-checkout records it. -/
def samplePayment : Payment :=
  { order_id := "o1", provider := "stripe", provider_payment_id := "cs_1",
    amount_cents := 23997, currency := "ZAR", status := .pending,
    created_at := 0, updated_at := 0 }

/-- A checkout.session.completed event for order o1, session cs_1. -/
def sampleCompletedEvent : StripeEvent :=
  { type := "checkout.session.completed", sessionId := some "cs_1",
    metaOrderId := some "o1", clientReferenceId := none,
    amountTotal := some 4242, currency := some "zar" }

/-- Unfolding equation for the completed branch, phrased on the store's
components. -/
theorem processCompleted_eq (oid sid : String) (ev : StripeEvent) (nowIso : Nat) (db : Db) :
    processCompleted oid sid ev nowIso db =
      ⟨db.orders.map (completedOrderStep oid nowIso),
        if (db.payments.filter (paymentKeyMatches oid sid)).length = 0 then
          db.payments.map (completedPaymentStep oid sid nowIso) ++
            [fallbackPaymentRow oid sid ev nowIso]
        else db.payments.map (completedPaymentStep oid sid nowIso)⟩ := rfl

/-- The payments update does not change the key columns. -/
theorem completedPaymentStep_key (oid sid : String) (nowIso : Nat) (p : Payment) :
    paymentKeyMatches oid sid (completedPaymentStep oid sid nowIso p) =
      paymentKeyMatches oid sid p := by
  obtain ⟨a, b, c, d, e, f, g, h⟩ := p
  by_cases hk : paymentKeyMatches oid sid ⟨a, b, c, d, e, f, g, h⟩ = true
  · rw [completedPaymentStep, if_pos hk]
    rfl
  · rw [completedPaymentStep, if_neg hk]

/-- The key-and-paid filter after the payments update agrees with the bare
key filter on the original row. -/
theorem completedPaymentStep_paidKey (oid sid : String) (nowIso : Nat) (p : Payment) :
    (paymentKeyMatches oid sid (completedPaymentStep oid sid nowIso p) &&
      (completedPaymentStep oid sid nowIso p).status == PaymentRowStatus.paid) =
      paymentKeyMatches oid sid p := by
  obtain ⟨a, b, c, d, e, f, g, h⟩ := p
  by_cases hk : paymentKeyMatches oid sid ⟨a, b, c, d, e, f, g, h⟩ = true
  · rw [completedPaymentStep, if_pos hk, hk]
    simp only [Bool.and_eq_true, beq_self_eq_true, and_true]
    exact hk
  · rw [completedPaymentStep, if_neg hk]
    simp only [Bool.not_eq_true] at hk
    simp [hk]

/-- The payments update is idempotent per row. -/
theorem completedPaymentStep_idem (oid sid : String) (nowIso : Nat) (p : Payment) :
    completedPaymentStep oid sid nowIso (completedPaymentStep oid sid nowIso p) =
      completedPaymentStep oid sid nowIso p := by
  by_cases hk : paymentKeyMatches oid sid p = true
  · have h1 : completedPaymentStep oid sid nowIso p =
        { p with status := PaymentRowStatus.paid, updated_at := nowIso } := if_pos hk
    have h2 : paymentKeyMatches oid sid
        ({ p with status := PaymentRowStatus.paid, updated_at := nowIso } : Payment) = true := by
      rw [← h1, completedPaymentStep_key]
      exact hk
    rw [h1]
    exact if_pos h2
  · have h1 : completedPaymentStep oid sid nowIso p = p := if_neg hk
    rw [h1, h1]

/-- The orders update of the completed branch is idempotent per row. -/
theorem completedOrderStep_idem (oid : String) (nowIso : Nat) (o : Order) :
    completedOrderStep oid nowIso (completedOrderStep oid nowIso o) =
      completedOrderStep oid nowIso o := by
  by_cases hk : (o.id == oid) = true
  · have h1 : completedOrderStep oid nowIso o = { o with payment_status := OrderPayStatus.paid, payment_method := some "card", updated_at := nowIso } := if_pos hk
    have h2 : (({ o with payment_status := OrderPayStatus.paid, payment_method := some "card", updated_at := nowIso } : Order).id == oid) = true := hk
    rw [h1]
    exact if_pos h2
  · have h1 : completedOrderStep oid nowIso o = o := if_neg hk
    rw [h1, h1]

/-- The fallback row matches the key of the event that inserted it. -/
theorem fallbackPaymentRow_key (oid sid : String) (ev : StripeEvent) (nowIso : Nat) :
    paymentKeyMatches oid sid (fallbackPaymentRow oid sid ev nowIso) = true := by
  simp [paymentKeyMatches, fallbackPaymentRow]

/-- The fallback row is already paid, so the key-and-paid filter keeps it. -/
theorem fallbackPaymentRow_paidKey (oid sid : String) (ev : StripeEvent) (nowIso : Nat) :
    (paymentKeyMatches oid sid (fallbackPaymentRow oid sid ev nowIso) &&
      (fallbackPaymentRow oid sid ev nowIso).status == PaymentRowStatus.paid) = true := by
  rw [fallbackPaymentRow_key]
  simp [fallbackPaymentRow]

/-- The payments update fixes the fallback row. -/
theorem fallbackPaymentRow_fixed (oid sid : String) (ev : StripeEvent) (nowIso : Nat) :
    completedPaymentStep oid sid nowIso (fallbackPaymentRow oid sid ev nowIso) =
      fallbackPaymentRow oid sid ev nowIso :=
  (if_pos (fallbackPaymentRow_key oid sid ev nowIso)).trans rfl

/-- C4. Replaying the same checkout-completed event is idempotent: running
the branch twice equals running it once; when the store previously held at
most one ledger row for the (order, provider, session) key, both runs leave
exactly one key-matching row in status paid; and after processing, the
order row for that id has payment_status paid (the branch updates matching
rows first and inserts only when zero rows were updated). -/
theorem processCompleted_idempotent (oid sid : String) (ev : StripeEvent) (nowIso : Nat)
    (db : Db) :
    processCompleted oid sid ev nowIso (processCompleted oid sid ev nowIso db) =
      processCompleted oid sid ev nowIso db
    ∧ ((db.payments.filter (paymentKeyMatches oid sid)).length ≤ 1 →
        ((processCompleted oid sid ev nowIso
            (processCompleted oid sid ev nowIso db)).payments.filter
          (fun p => paymentKeyMatches oid sid p &&
            p.status == PaymentRowStatus.paid)).length = 1)
    ∧ (∀ o ∈ (processCompleted oid sid ev nowIso db).orders, o.id = oid →
        o.payment_status = .paid) := by
  have hkey := completedPaymentStep_key oid sid nowIso
  have hq := completedPaymentStep_paidKey oid sid nowIso
  have horders2 :
      ((db.orders.map (completedOrderStep oid nowIso)).map (completedOrderStep oid nowIso)) =
        db.orders.map (completedOrderStep oid nowIso) :=
    map_step_twice _ (completedOrderStep_idem oid nowIso) _
  have hfilter1 :
      ((db.payments.map (completedPaymentStep oid sid nowIso)).filter
          (paymentKeyMatches oid sid)) =
        (db.payments.filter (paymentKeyMatches oid sid)).map
          (completedPaymentStep oid sid nowIso) :=
    map_filter_key _ _ _ hkey _
  have hfilterq :
      ((db.payments.map (completedPaymentStep oid sid nowIso)).filter
          (fun p => paymentKeyMatches oid sid p && p.status == PaymentRowStatus.paid)) =
        (db.payments.filter (paymentKeyMatches oid sid)).map
          (completedPaymentStep oid sid nowIso) :=
    map_filter_key _ _ _ hq _
  have hpay2 :
      ((db.payments.map (completedPaymentStep oid sid nowIso)).map
          (completedPaymentStep oid sid nowIso)) =
        db.payments.map (completedPaymentStep oid sid nowIso) :=
    map_step_twice _ (completedPaymentStep_idem oid sid nowIso) _
  have hidem : processCompleted oid sid ev nowIso (processCompleted oid sid ev nowIso db) =
      processCompleted oid sid ev nowIso db := by
    rw [processCompleted_eq oid sid ev nowIso db]
    by_cases hc : (db.payments.filter (paymentKeyMatches oid sid)).length = 0
    · have hnil : db.payments.filter (paymentKeyMatches oid sid) = [] :=
        List.length_eq_zero.mp hc
      rw [if_pos hc, processCompleted_eq]
      have hfc2 : (((db.payments.map (completedPaymentStep oid sid nowIso) ++
            [fallbackPaymentRow oid sid ev nowIso]).filter
          (paymentKeyMatches oid sid)).length) = 1 := by
        rw [List.filter_append, hfilter1, hnil, List.map_nil, List.nil_append]
        simp [List.filter_cons, fallbackPaymentRow_key]
      show Db.mk _ _ = Db.mk _ _
      rw [Db.mk.injEq]
      refine ⟨horders2, ?_⟩
      rw [if_neg (by rw [hfc2]; exact one_ne_zero), List.map_append, hpay2]
      rw [List.map_cons, List.map_nil, fallbackPaymentRow_fixed]
    · rw [if_neg hc, processCompleted_eq]
      have hfc2 : (((db.payments.map (completedPaymentStep oid sid nowIso)).filter
          (paymentKeyMatches oid sid)).length) ≠ 0 := by
        rw [hfilter1, List.length_map]
        exact hc
      show Db.mk _ _ = Db.mk _ _
      rw [Db.mk.injEq]
      exact ⟨horders2, by rw [if_neg hfc2, hpay2]⟩
  refine ⟨hidem, ?_, ?_⟩
  · intro hle
    rw [hidem, processCompleted_eq]
    by_cases hc : (db.payments.filter (paymentKeyMatches oid sid)).length = 0
    · have hnil : db.payments.filter (paymentKeyMatches oid sid) = [] :=
        List.length_eq_zero.mp hc
      show ((if _ = 0 then _ else _ : List Payment).filter _).length = 1
      rw [if_pos hc, List.filter_append, hfilterq, hnil, List.map_nil, List.nil_append]
      simp [List.filter_cons, fallbackPaymentRow_paidKey]
    · have hone : (db.payments.filter (paymentKeyMatches oid sid)).length = 1 :=
        le_antisymm hle (Nat.one_le_iff_ne_zero.mpr hc)
      show ((if _ = 0 then _ else _ : List Payment).filter _).length = 1
      rw [if_neg hc, hfilterq, List.length_map, hone]
  · intro o ho hid
    rcases List.mem_map.mp ho with ⟨x, hx, hgx⟩
    by_cases hxid : (x.id == oid) = true
    · rw [completedOrderStep, if_pos hxid] at hgx
      rw [← hgx]
    · rw [completedOrderStep, if_neg hxid] at hgx
      exact absurd (by rw [← hgx] at hid; simpa using hid) (by simpa using hxid)

/-- Closed instance of C4: a store with one pending row for session cs_1;
the second run is a no-op and exactly one paid row remains for the key. -/
theorem processCompleted_idempotent_witness :
    processCompleted "o1" "cs_1" sampleCompletedEvent 7
        (processCompleted "o1" "cs_1" sampleCompletedEvent 7 ⟨[sampleOrder], [samplePayment]⟩) =
      processCompleted "o1" "cs_1" sampleCompletedEvent 7 ⟨[sampleOrder], [samplePayment]⟩
    ∧ ((processCompleted "o1" "cs_1" sampleCompletedEvent 7
        (processCompleted "o1" "cs_1" sampleCompletedEvent 7
          ⟨[sampleOrder], [samplePayment]⟩)).payments.filter
        (fun p => paymentKeyMatches "o1" "cs_1" p &&
          p.status == PaymentRowStatus.paid)).length = 1 :=
  ⟨(processCompleted_idempotent "o1" "cs_1" sampleCompletedEvent 7
      ⟨[sampleOrder], [samplePayment]⟩).1,
    (processCompleted_idempotent "o1" "cs_1" sampleCompletedEvent 7
      ⟨[sampleOrder], [samplePayment]⟩).2.1 (by decide)⟩

/-- C10. When no ledger row matches the (order, provider, session) key, the
completed branch appends the fallback row whose amount_cents comes from the
event's amount_total (default 0) and whose currency is the event's currency
uppercased (default ZAR); the payments outcome never reads the orders table,
hence never the order's stored total_cents. -/
theorem processCompleted_fallback_from_event (oid sid : String) (ev : StripeEvent)
    (nowIso : Nat) (db : Db)
    (hnone : db.payments.filter (paymentKeyMatches oid sid) = []) :
    (processCompleted oid sid ev nowIso db).payments =
      db.payments ++ [fallbackPaymentRow oid sid ev nowIso]
    ∧ (fallbackPaymentRow oid sid ev nowIso).amount_cents = ev.amountTotal.getD 0
    ∧ (fallbackPaymentRow oid sid ev nowIso).currency = jsToUpper (ev.currency.getD "ZAR")
    ∧ ∀ orders2 : List Order,
        (processCompleted oid sid ev nowIso ⟨orders2, db.payments⟩).payments =
          (processCompleted oid sid ev nowIso db).payments := by
  refine ⟨?_, rfl, rfl, fun orders2 => rfl⟩
  have hmap : db.payments.map (completedPaymentStep oid sid nowIso) = db.payments :=
    map_step_fixed _ _ (fun p hp => by
      rw [completedPaymentStep,
        if_neg (by simpa using (List.filter_eq_nil_iff.mp hnone) p hp)])
  rw [processCompleted]
  simp only [hnone, List.length_nil, if_true, hmap]

/-- Closed instance of C10: the order's stored total is 99999 but the
inserted row carries the event's amount_total 4242 and currency ZAR. -/
theorem processCompleted_fallback_from_event_witness :
    (processCompleted "o1" "cs_1" sampleCompletedEvent 7
        ⟨[{ sampleOrder with total_cents := 99999 }], []⟩).payments =
      [{ order_id := "o1", provider := "stripe", provider_payment_id := "cs_1",
         amount_cents := 4242, currency := "ZAR", status := .paid,
         created_at := 7, updated_at := 7 }] :=
  ((processCompleted_fallback_from_event "o1" "cs_1" sampleCompletedEvent 7
      ⟨[{ sampleOrder with total_cents := 99999 }], []⟩ (by decide)).1).trans (by decide)

/-! ## C7 and C9: the create-checkout endpoint -/

/-- A pending, not-yet-paid order owned by u1. -/
def unpaidOrder : Order :=
  { sampleOrder with id := "o4", payment_status := .unpaid }

/-- C7. Status codes of the endpoint: 401 for an unauthenticated caller,
404 when the order id matches no order, 403 when the caller is not the
owner, 409 when the order is already paid or in a terminal status, 400 when
the amount is below 100 minor units, 502 when the provider call fails, and
on success 200 with the provider redirect url and session id. -/
theorem createCheckout_status_codes (db : Db) (oid uid : String)
    (stripeResult : Option StripeSession) (now : Nat) :
    (createCheckout none (some oid) stripeResult now db = (db, .err 401))
    ∧ (db.orders.find? (fun o => o.id == oid) = none →
        createCheckout (some uid) (some oid) stripeResult now db = (db, .err 404))
    ∧ (∀ order, db.orders.find? (fun o => o.id == oid) = some order →
        ((order.user_id ≠ uid →
          createCheckout (some uid) (some oid) stripeResult now db = (db, .err 403))
        ∧ (order.user_id = uid → order.payment_status = .paid →
          createCheckout (some uid) (some oid) stripeResult now db = (db, .err 409))
        ∧ (order.user_id = uid → order.payment_status ≠ .paid →
            (order.status = .cancelled ∨ order.status = .delivered ∨ order.status = .failed) →
          createCheckout (some uid) (some oid) stripeResult now db = (db, .err 409))
        ∧ (order.user_id = uid → order.payment_status ≠ .paid →
            ¬(order.status = .cancelled ∨ order.status = .delivered ∨ order.status = .failed) →
            order.total_cents < 100 →
          createCheckout (some uid) (some oid) stripeResult now db = (db, .err 400))
        ∧ (order.user_id = uid → order.payment_status ≠ .paid →
            ¬(order.status = .cancelled ∨ order.status = .delivered ∨ order.status = .failed) →
            100 ≤ order.total_cents →
            ((stripeResult = none →
              (createCheckout (some uid) (some oid) stripeResult now db).2 = .err 502)
            ∧ (∀ s, stripeResult = some s →
              (createCheckout (some uid) (some oid) stripeResult now db).2 =
                .ok s.url s.id))))) := by
  refine ⟨rfl, ?_, ?_⟩
  · intro h404
    simp only [createCheckout, h404]
  · intro order hfind
    refine ⟨?_, ?_, ?_, ?_, ?_⟩
    · intro hne
      simp only [createCheckout, hfind]
      rw [if_pos hne]
    · intro howner hpaid
      simp only [createCheckout, hfind]
      rw [if_neg (fun hne => hne howner), if_pos hpaid]
    · intro howner hpaid hterm
      simp only [createCheckout, hfind]
      rw [if_neg (fun hne => hne howner), if_neg hpaid, if_pos hterm]
    · intro howner hpaid hterm hlow
      simp only [createCheckout, hfind]
      rw [if_neg (fun hne => hne howner), if_neg hpaid, if_neg hterm, if_pos hlow]
    · intro howner hpaid hterm hamt
      constructor
      · intro hnone
        simp only [createCheckout, hfind, hnone]
        rw [if_neg (fun hne => hne howner), if_neg hpaid, if_neg hterm,
          if_neg (not_lt.mpr hamt)]
      · intro s hsome
        simp only [createCheckout, hfind, hsome]
        rw [if_neg (fun hne => hne howner), if_neg hpaid, if_neg hterm,
          if_neg (not_lt.mpr hamt)]

/-- Closed instance of C7: a caller who does not own the order gets 403 and
the store is unchanged. -/
theorem createCheckout_status_codes_witness :
    createCheckout (some "u2") (some "o1") none 3 ⟨[sampleOrder], []⟩ =
      (⟨[sampleOrder], []⟩, .err 403) :=
  ((createCheckout_status_codes ⟨[sampleOrder], []⟩ "o1" "u2" none 3).2.2 sampleOrder
    (by decide)).1 (by decide)

/-- C9. Once the payability checks pass and regardless of whether the
provider call then succeeds or fails, the endpoint rewrites the orders
table by setting payment_method to card and bumping updated_at on every row
whose id equals the order's id — no status precondition, no other field
changed. -/
theorem createCheckout_payment_method_tag (db : Db) (oid uid : String) (now : Nat)
    (order : Order)
    (hfind : db.orders.find? (fun o => o.id == oid) = some order)
    (howner : order.user_id = uid)
    (hpaid : order.payment_status ≠ .paid)
    (hterm : ¬(order.status = .cancelled ∨ order.status = .delivered ∨ order.status = .failed))
    (hamt : 100 ≤ order.total_cents) :
    ∀ stripeResult,
      (createCheckout (some uid) (some oid) stripeResult now db).1.orders =
        db.orders.map (fun o =>
          if o.id == order.id then { o with payment_method := some "card", updated_at := now }
          else o) := by
  intro stripeResult
  cases stripeResult with
  | none =>
    simp only [createCheckout, hfind]
    rw [if_neg (fun hne => hne howner), if_neg hpaid, if_neg hterm,
      if_neg (not_lt.mpr hamt)]
  | some s =>
    simp only [createCheckout, hfind]
    rw [if_neg (fun hne => hne howner), if_neg hpaid, if_neg hterm,
      if_neg (not_lt.mpr hamt)]

/-- Closed instance of C9: the order is pending and unpaid; even with the
provider call failing (502), payment_method is already card. -/
theorem createCheckout_payment_method_tag_witness :
    (createCheckout (some "u1") (some "o4") none 3 ⟨[unpaidOrder], []⟩).1.orders =
      [{ unpaidOrder with payment_method := some "card", updated_at := 3 }] :=
  (createCheckout_payment_method_tag ⟨[unpaidOrder], []⟩ "o4" "u1" 3 unpaidOrder
      (by decide) (by decide) (by decide) (by decide) (by decide) none).trans (by decide)

/-! ## C8: role resolution -/

/-- C8. Role resolution always lands on exactly one of admin/rider/client;
the admin check comes first and its timeout behaves exactly like a
"not admin" answer; a granted admin check short-circuits to admin; when the
admin check is not granted, a linked rider profile yields rider, otherwise
client; and a thrown error resolves to client with the user-visible
diagnostic surfaced. -/
theorem resolveRole_policy :
    (∀ a r, (resolveRole a r).1 = .admin ∨ (resolveRole a r).1 = .rider ∨
      (resolveRole a r).1 = .client)
    ∧ (∀ r, resolveRole (.ok .timedOut) r =
        resolveRole (.ok (.rpcResolved (some false) false)) r)
    ∧ (∀ r, resolveRole (.ok (.rpcResolved (some true) false)) r = (.admin, false))
    ∧ (∀ a, ¬((safeIsAdminRpc a).2 = false ∧ (safeIsAdminRpc a).1 = some true) →
        (resolveRole (.ok a) (.ok ⟨true, none⟩) = (.rider, false)
        ∧ resolveRole (.ok a) (.ok ⟨false, none⟩) = (.client, false)
        ∧ resolveRole (.ok a) .throws = (.client, true)))
    ∧ (∀ r, resolveRole .throws r = (.client, true)) := by
  refine ⟨?_, ?_, ?_, ?_, fun r => rfl⟩
  · intro a r
    cases hres : (resolveRole a r).1 with
    | admin => exact Or.inl rfl
    | rider => exact Or.inr (Or.inl rfl)
    | client => exact Or.inr (Or.inr rfl)
  · intro r
    simp [resolveRole, safeIsAdminRpc]
  · intro r
    simp [resolveRole, safeIsAdminRpc]
  · intro a hna
    refine ⟨?_, ?_, ?_⟩
    · simp only [resolveRole]
      rw [if_neg hna]
      simp
    · simp only [resolveRole]
      rw [if_neg hna]
      simp
    · simp only [resolveRole]
      rw [if_neg hna]

/-- Closed instance of C8: the admin RPC returned an error, the rider
profile exists, so the role is rider; with no rider row it is client; a
thrown rider query surfaces the diagnostic and resolves client. -/
theorem resolveRole_policy_witness :
    resolveRole (.ok (.rpcResolved none true)) (.ok ⟨true, none⟩) = (.rider, false)
    ∧ resolveRole (.ok (.rpcResolved none true)) (.ok ⟨false, none⟩) = (.client, false)
    ∧ resolveRole (.ok (.rpcResolved none true)) .throws = (.client, true) :=
  resolveRole_policy.2.2.2.1 (.rpcResolved none true) (by decide)

end Aqva
